import Mathlib

/-!
Shallow embedding of the data-aggregation layer of the dashboard repository
(`src/lib/fetcher.tsx`): the five-resource loader (`handleResponse`,
`handleError`, `fetchProduction`) and the aggregate state store built by
`useFetcher` (five state slices, the update callback, and the mount effect).

JavaScript values relevant to the claims are modelled explicitly:
* an object's `error` field may be absent (`undefined`), a boolean, or a
  string; truthiness of such a value is `ErrVal.truthy`;
* a rejected promise carries a `JsError` with a `message` string;
* a `fetch` of one resource either rejects (network failure) or yields a
  `Response` with a numeric status and a body whose JSON parse may fail.
-/

namespace Dashboard

/-- The fixed error message `errorMessage` of `fetcher.tsx`. -/
def errorMessage : String := "Failed to load data."

/-- A JavaScript value sitting in an `error` field: absent (`undefined`),
a boolean, or a string. -/
inductive ErrVal where
  | undef : ErrVal
  | bool (b : Bool) : ErrVal
  | str (s : String) : ErrVal
deriving DecidableEq, Repr

/-- JavaScript truthiness of an `error` field value: `undefined` and `false`
and `""` are falsy; `true` and nonempty strings are truthy. -/
def ErrVal.truthy : ErrVal → Bool
  | .undef => false
  | .bool b => b
  | .str s => !(s == "")

/-- A JavaScript `Error` object, reduced to the only part the code reads:
its `message`. -/
structure JsError where
  message : String
deriving DecidableEq, Repr

/-- A `{text, link}` record of the imprint payload (shape fixed by the
`defaults.imprint` literal in `fetcher.tsx`). -/
structure LinkField where
  text : String
  link : String
deriving DecidableEq, Repr

/-- `IImprintProps`: the imprint record, per the `defaults.imprint` literal in
`fetcher.tsx` and the spec's description of `/data/imprint.json`. -/
structure IImprintProps where
  name : LinkField
  address : LinkField
  phone : LinkField
  email : LinkField
  url : LinkField
  text : String
deriving DecidableEq, Repr

/-- `IThemeProps`: a theme record, per the spec's description of
`/data/themes.json` (its defining file is not under the sources; the numeric
`value` is modelled as `Int`). -/
structure IThemeProps where
  label : String
  value : Int
  mainColor : String
  accentColor : String
  backgroundColor : String
deriving DecidableEq, Repr

/-- Modelled from the spec: `IAppProps` is an element record type defined in a
component file absent from the sources; the aggregation layer never inspects
its fields, so it is represented by an abstract atom. -/
abbrev IAppProps := String

/-- Modelled from the spec: `IAppCategoryProps`, as for `IAppProps`. -/
abbrev IAppCategoryProps := String

/-- Modelled from the spec: `IBookmarkGroupProps`, as for `IAppProps`. -/
abbrev IBookmarkGroupProps := String

/-- Modelled from the spec: `ISearchProviderProps`, as for `IAppProps`. -/
abbrev ISearchProviderProps := String

/-- `IAppDataProps` of `fetcher.tsx`: the apps slice / parsed body of
`/data/apps.json`. The `error` field is an `ErrVal` so that a parsed body
may lack it (`undefined`), carry a boolean, or carry a string. -/
structure IAppDataProps where
  categories : List IAppCategoryProps
  apps : List IAppProps
  error : ErrVal
deriving DecidableEq, Repr

/-- `IBookmarkDataProps` of `fetcher.tsx`. -/
structure IBookmarkDataProps where
  groups : List IBookmarkGroupProps
  error : ErrVal
deriving DecidableEq, Repr

/-- `ISearchProviderDataProps` of `fetcher.tsx`. -/
structure ISearchProviderDataProps where
  providers : List ISearchProviderProps
  error : ErrVal
deriving DecidableEq, Repr

/-- `IThemeDataProps` of `fetcher.tsx`. -/
structure IThemeDataProps where
  themes : List IThemeProps
  error : ErrVal
deriving DecidableEq, Repr

/-- `IImprintDataProps` of `fetcher.tsx`. -/
structure IImprintDataProps where
  imprint : IImprintProps
  error : ErrVal
deriving DecidableEq, Repr

/-- `defaults.app` of `fetcher.tsx`. -/
def defaults.app : IAppDataProps :=
  { categories := [], apps := [], error := .bool false }

/-- `defaults.bookmark` of `fetcher.tsx`. -/
def defaults.bookmark : IBookmarkDataProps :=
  { groups := [], error := .bool false }

/-- `defaults.search` of `fetcher.tsx`. -/
def defaults.search : ISearchProviderDataProps :=
  { providers := [], error := .bool false }

/-- `defaults.theme` of `fetcher.tsx`. -/
def defaults.theme : IThemeDataProps :=
  { themes := [], error := .bool false }

/-- `defaults.imprint` of `fetcher.tsx`. -/
def defaults.imprint : IImprintDataProps :=
  { imprint :=
      { name := ⟨"", ""⟩, address := ⟨"", ""⟩, phone := ⟨"", ""⟩,
        email := ⟨"", ""⟩, url := ⟨"", ""⟩, text := "" },
    error := .bool false }

deriving instance DecidableEq for Except

/-- A `fetch` `Response`, reduced to what `handleResponse` reads: the numeric
HTTP status (from which `Response.ok` is derived, as in the Fetch standard)
and the outcome of parsing the body as JSON into the expected record type
(`Except.error` = malformed body, the parse exception's message attached). -/
structure Response (α : Type) where
  status : Nat
  json : Except JsError α
deriving DecidableEq, Repr

/-- `Response.ok` per the Fetch standard: status in the range 200–299. -/
def Response.ok {α : Type} (r : Response α) : Bool :=
  200 ≤ r.status && r.status ≤ 299

/-- `handleResponse` of `fetcher.tsx`: on an ok response, the (possibly
failing) JSON parse of the body; otherwise a thrown `Error(errorMessage)`. -/
def handleResponse {α : Type} (response : Response α) : Except JsError α :=
  if response.ok then response.json else Except.error ⟨errorMessage⟩

/-- The union of the five per-kind result values that flow through the
aggregate load (the source types this position as `any`). -/
inductive LoadResult where
  | app (d : IAppDataProps)
  | bookmark (d : IBookmarkDataProps)
  | search (d : ISearchProviderDataProps)
  | theme (d : IThemeDataProps)
  | imprint (d : IImprintDataProps)
deriving DecidableEq, Repr

/-- `handleError` of `fetcher.tsx`: a `switch` on the `status` string that,
for the five known statuses, returns that kind's defaults spread with
`error: error.message`, and for any other string falls through to `break`,
returning `undefined` (modelled as `none`). -/
def handleError (status : String) (error : JsError) : Option LoadResult :=
  match status with
  | "apps" => some (.app { defaults.app with error := .str error.message })
  | "bookmark" => some (.bookmark { defaults.bookmark with error := .str error.message })
  | "searchProvider" => some (.search { defaults.search with error := .str error.message })
  | "theme" => some (.theme { defaults.theme with error := .str error.message })
  | "imprint" => some (.imprint { defaults.imprint with error := .str error.message })
  | _ => none

/-- The outcome of one `fetch(url)` call: either the promise rejects with a
network error, or it resolves with a `Response`. -/
abbrev FetchOutcome (α : Type) := Except JsError (Response α)

/-- One element of the `Promise.all` array in `fetchProduction`:
`fetch(url).then(handleResponse).catch((error) => handleError(status, error))`.
The `then` applies `handleResponse` only to a resolution (errors pass
through, i.e. `Except.bind`); the `catch` maps any error — network rejection,
the thrown `Error(errorMessage)`, or a body-parse rejection — through
`handleError`; a successful parse resolves with the parsed record itself. -/
def fetchChain {α : Type} (status : String) (wrap : α → LoadResult)
    (o : FetchOutcome α) : Option LoadResult :=
  match Except.bind o handleResponse with
  | .ok v => some (wrap v)
  | .error e => handleError status e

/-- The network environment a production aggregate load executes against: the
outcome each of the five GETs would produce. -/
structure NetworkEnv where
  apps : FetchOutcome IAppDataProps
  bookmarks : FetchOutcome IBookmarkDataProps
  search : FetchOutcome ISearchProviderDataProps
  themes : FetchOutcome IThemeDataProps
  imprint : FetchOutcome IImprintDataProps
deriving DecidableEq, Repr

/-- `fetchProduction` of `fetcher.tsx`: `Promise.all` of the five fetch
chains, in the source's fixed order [apps, bookmarks, search, themes,
imprint]. Each element has a terminal `catch`, so each settles with a value
(possibly `undefined`, i.e. `none`) and the aggregate never rejects; the
result is the ordered 5-tuple of settled values, as a pure function of the
environment the fetches run against. -/
def fetchProduction (env : NetworkEnv) :
    Option LoadResult × Option LoadResult × Option LoadResult ×
    Option LoadResult × Option LoadResult :=
  (fetchChain "apps" .app env.apps,
   fetchChain "bookmark" .bookmark env.bookmarks,
   fetchChain "searchProvider" .search env.search,
   fetchChain "theme" .theme env.themes,
   fetchChain "imprint" .imprint env.imprint)

/-- The five state slices held by `useFetcher` (`appData`, `bookmarkData`,
`searchProviderData`, `themeData`, `imprintData`). -/
structure StoreState where
  appData : IAppDataProps
  bookmarkData : IBookmarkDataProps
  searchProviderData : ISearchProviderDataProps
  themeData : IThemeDataProps
  imprintData : IImprintDataProps
deriving DecidableEq, Repr

/-- The state of `useFetcher` at construction: each `useState` is seeded with
that kind's entry of `defaults`. -/
def initialState : StoreState :=
  { appData := defaults.app, bookmarkData := defaults.bookmark,
    searchProviderData := defaults.search, themeData := defaults.theme,
    imprintData := defaults.imprint }

/-- One slice update of the callback's `then` handler, apps position:
`(appData.error) ? setAppData(appData) : setAppData({ ...appData, error: false })`. -/
def appUpdate (r : IAppDataProps) : IAppDataProps :=
  if r.error.truthy then r else { r with error := .bool false }

/-- Slice update, bookmarks position. -/
def bookmarkUpdate (r : IBookmarkDataProps) : IBookmarkDataProps :=
  if r.error.truthy then r else { r with error := .bool false }

/-- Slice update, search-providers position. -/
def searchUpdate (r : ISearchProviderDataProps) : ISearchProviderDataProps :=
  if r.error.truthy then r else { r with error := .bool false }

/-- Slice update, themes position. -/
def themeUpdate (r : IThemeDataProps) : IThemeDataProps :=
  if r.error.truthy then r else { r with error := .bool false }

/-- Slice update, imprint position. -/
def imprintUpdate (r : IImprintDataProps) : IImprintDataProps :=
  if r.error.truthy then r else { r with error := .bool false }

/-- The body of the callback's `then` handler: the five destructured results
are written into their slices, each replacing the previous value of that
slice (the previous state `s` contributes nothing to any slice). -/
def applyResults (_s : StoreState) (a : IAppDataProps) (b : IBookmarkDataProps)
    (p : ISearchProviderDataProps) (t : IThemeDataProps) (i : IImprintDataProps) :
    StoreState :=
  { appData := appUpdate a, bookmarkData := bookmarkUpdate b,
    searchProviderData := searchUpdate p, themeData := themeUpdate t,
    imprintData := imprintUpdate i }

/-- One completed cycle of the callback against network environment `env`:
destructure the settled 5-tuple of `fetchProduction` as
`[appData, bookmarkData, searchData, themeData, imprintData]` and run the
`then` handler. The catch-all branch is unreachable for `fetchProduction`
(lemma `fetchProduction_shape`). -/
def callbackStep (env : NetworkEnv) (s : StoreState) : StoreState :=
  match fetchProduction env with
  | (some (.app a), some (.bookmark b), some (.search p),
     some (.theme t), some (.imprint i)) => applyResults s a b p t i
  | _ => s

/-- An invocation of the returned callback. In the source, `fetchProduction`
is a module-level `const` holding a `Promise.all` that starts its five
fetches when the module is initialized; `callback` only attaches a `then`
handler to that same promise. The slices an invocation produces therefore
depend on the network environment at module initialization
(`envAtModuleInit`), not on the environment at the time of the call
(`envAtCall`). -/
def callbackInvocation (envAtModuleInit : NetworkEnv) (_envAtCall : NetworkEnv)
    (s : StoreState) : StoreState :=
  callbackStep envAtModuleInit s

/-- The dependency value of `useEffect(() => callback(), [callback])` at each
render: `callback` comes from `useCallback` with an empty dependency list, so
it is the same function object at every render (a constant). -/
def callbackIdentity : Nat → Unit := fun _ => ()

/-- React `useEffect` firing rule: the effect runs after the first render,
and after a later render exactly when its dependency value differs from the
previous render's. -/
def useEffectFires {α : Type} [DecidableEq α] (deps : Nat → α) : Nat → Bool
  | 0 => true
  | i + 1 => decide (deps (i + 1) ≠ deps i)

/-- How many times an effect with dependencies `deps` has fired after the
first `n` renders. -/
def effectFireCount {α : Type} [DecidableEq α] (deps : Nat → α) (n : Nat) : Nat :=
  (List.range n).countP (useEffectFires deps)

/-- The fetch of one resource loads successfully with parsed body `v`: the
promise resolves, the response status is ok, and the body parses to `v`. -/
def loadsSuccessfully {α : Type} (o : FetchOutcome α) (v : α) : Prop :=
  ∃ r, o = Except.ok r ∧ r.ok = true ∧ r.json = Except.ok v

/-- The fetch of one resource fails, the exception `e` reaching the `catch`:
either the fetch itself rejects with `e` (network failure), or a response
arrives whose status is not ok (then `e` is the thrown `Error(errorMessage)`),
or the status is ok and the body parse rejects with `e` (malformed body). -/
def failsWith {α : Type} (o : FetchOutcome α) (e : JsError) : Prop :=
  o = Except.error e ∨
    ∃ r, o = Except.ok r ∧
      ((r.ok = false ∧ e = ⟨errorMessage⟩) ∨ (r.ok = true ∧ r.json = Except.error e))

/-- The body a resource's fetch would parse to conforms to that kind's
declared payload shape as far as the `error` field is concerned: the spec's
§6 body shapes carry no `error` member, so a conforming parsed body has a
falsy `error` field. -/
def conformingBody {α : Type} (errOf : α → ErrVal) (o : FetchOutcome α) : Prop :=
  ∀ r v, o = Except.ok r → r.json = Except.ok v → (errOf v).truthy = false

/-- All five resources of the environment would only ever parse to bodies
conforming to their §6 shapes (no stray `error` member). -/
def wellFormedEnv (env : NetworkEnv) : Prop :=
  conformingBody IAppDataProps.error env.apps ∧
  conformingBody IBookmarkDataProps.error env.bookmarks ∧
  conformingBody ISearchProviderDataProps.error env.search ∧
  conformingBody IThemeDataProps.error env.themes ∧
  conformingBody IImprintDataProps.error env.imprint

/-- The two admissible states of the apps slice: error flag exactly `false`,
or the default payload carrying a message string. -/
def appSliceInv (a : IAppDataProps) : Bool :=
  (a.error == .bool false) ||
    ((match a.error with | .str _ => true | _ => false) &&
      (a.categories == defaults.app.categories) && (a.apps == defaults.app.apps))

/-- The two admissible states of the bookmarks slice. -/
def bookmarkSliceInv (b : IBookmarkDataProps) : Bool :=
  (b.error == .bool false) ||
    ((match b.error with | .str _ => true | _ => false) &&
      (b.groups == defaults.bookmark.groups))

/-- The two admissible states of the search-providers slice. -/
def searchSliceInv (p : ISearchProviderDataProps) : Bool :=
  (p.error == .bool false) ||
    ((match p.error with | .str _ => true | _ => false) &&
      (p.providers == defaults.search.providers))

/-- The two admissible states of the themes slice. -/
def themeSliceInv (t : IThemeDataProps) : Bool :=
  (t.error == .bool false) ||
    ((match t.error with | .str _ => true | _ => false) &&
      (t.themes == defaults.theme.themes))

/-- The two admissible states of the imprint slice. -/
def imprintSliceInv (i : IImprintDataProps) : Bool :=
  (i.error == .bool false) ||
    ((match i.error with | .str _ => true | _ => false) &&
      (i.imprint == defaults.imprint.imprint))

/-- The spec's §3 invariant, slice by slice. -/
def storeInv (s : StoreState) : Bool :=
  appSliceInv s.appData && bookmarkSliceInv s.bookmarkData &&
  searchSliceInv s.searchProviderData && themeSliceInv s.themeData &&
  imprintSliceInv s.imprintData

lemma bind_handleResponse_of_fails {α : Type} {o : FetchOutcome α} {e : JsError}
    (h : failsWith o e) : Except.bind o handleResponse = Except.error e := by
  rcases h with h | ⟨r, rfl, ⟨hok, rfl⟩ | ⟨hok, hjson⟩⟩
  · subst h; rfl
  · simp [Except.bind, handleResponse, hok]
  · simp [Except.bind, handleResponse, hok, hjson]

lemma bind_handleResponse_of_success {α : Type} {o : FetchOutcome α} {v : α}
    (h : loadsSuccessfully o v) : Except.bind o handleResponse = Except.ok v := by
  rcases h with ⟨r, rfl, hok, hjson⟩
  simp [Except.bind, handleResponse, hok, hjson]

lemma fetchChain_of_success {α : Type} {o : FetchOutcome α} {v : α}
    (status : String) (wrap : α → LoadResult) (h : loadsSuccessfully o v) :
    fetchChain status wrap o = some (wrap v) := by
  simp [fetchChain, bind_handleResponse_of_success h]

lemma fetchChain_of_fails {α : Type} {o : FetchOutcome α} {e : JsError}
    (status : String) (wrap : α → LoadResult) (h : failsWith o e) :
    fetchChain status wrap o = handleError status e := by
  simp [fetchChain, bind_handleResponse_of_fails h]

lemma fetchChain_apps_shape (o : FetchOutcome IAppDataProps) :
    ∃ x, fetchChain "apps" .app o = some (.app x) := by
  unfold fetchChain
  cases Except.bind o handleResponse with
  | ok v => exact ⟨v, rfl⟩
  | error e => exact ⟨{ defaults.app with error := .str e.message }, rfl⟩

lemma fetchChain_bookmark_shape (o : FetchOutcome IBookmarkDataProps) :
    ∃ x, fetchChain "bookmark" .bookmark o = some (.bookmark x) := by
  unfold fetchChain
  cases Except.bind o handleResponse with
  | ok v => exact ⟨v, rfl⟩
  | error e => exact ⟨{ defaults.bookmark with error := .str e.message }, rfl⟩

lemma fetchChain_search_shape (o : FetchOutcome ISearchProviderDataProps) :
    ∃ x, fetchChain "searchProvider" .search o = some (.search x) := by
  unfold fetchChain
  cases Except.bind o handleResponse with
  | ok v => exact ⟨v, rfl⟩
  | error e => exact ⟨{ defaults.search with error := .str e.message }, rfl⟩

lemma fetchChain_theme_shape (o : FetchOutcome IThemeDataProps) :
    ∃ x, fetchChain "theme" .theme o = some (.theme x) := by
  unfold fetchChain
  cases Except.bind o handleResponse with
  | ok v => exact ⟨v, rfl⟩
  | error e => exact ⟨{ defaults.theme with error := .str e.message }, rfl⟩

lemma fetchChain_imprint_shape (o : FetchOutcome IImprintDataProps) :
    ∃ x, fetchChain "imprint" .imprint o = some (.imprint x) := by
  unfold fetchChain
  cases Except.bind o handleResponse with
  | ok v => exact ⟨v, rfl⟩
  | error e => exact ⟨{ defaults.imprint with error := .str e.message }, rfl⟩

/-- Every element of the settled aggregate tuple is a defined value of its
position's kind: the `catch`-all branch of `callbackStep` is unreachable. -/
lemma fetchProduction_shape (env : NetworkEnv) :
    ∃ a b p t i, fetchProduction env =
      (some (.app a), some (.bookmark b), some (.search p),
       some (.theme t), some (.imprint i)) := by
  obtain ⟨a, ha⟩ := fetchChain_apps_shape env.apps
  obtain ⟨b, hb⟩ := fetchChain_bookmark_shape env.bookmarks
  obtain ⟨p, hp⟩ := fetchChain_search_shape env.search
  obtain ⟨t, ht⟩ := fetchChain_theme_shape env.themes
  obtain ⟨i, hi⟩ := fetchChain_imprint_shape env.imprint
  exact ⟨a, b, p, t, i, by simp [fetchProduction, ha, hb, hp, ht, hi]⟩

lemma callbackStep_eq_applyResults {env : NetworkEnv}
    {a : IAppDataProps} {b : IBookmarkDataProps} {p : ISearchProviderDataProps}
    {t : IThemeDataProps} {i : IImprintDataProps} (s : StoreState)
    (h : fetchProduction env =
      (some (.app a), some (.bookmark b), some (.search p),
       some (.theme t), some (.imprint i))) :
    callbackStep env s = applyResults s a b p t i := by
  unfold callbackStep
  rw [h]

lemma callbackStep_app_success {env : NetworkEnv} {v : IAppDataProps}
    (s : StoreState) (h : loadsSuccessfully env.apps v) :
    (callbackStep env s).appData = appUpdate v := by
  obtain ⟨a, b, p, t, i, htup⟩ := fetchProduction_shape env
  have h1 : fetchChain "apps" LoadResult.app env.apps = some (.app a) :=
    congrArg Prod.fst htup
  rw [fetchChain_of_success "apps" LoadResult.app h] at h1
  injection h1 with h1
  injection h1 with h1
  subst h1
  rw [callbackStep_eq_applyResults s htup]
  rfl

lemma callbackStep_bookmark_success {env : NetworkEnv} {v : IBookmarkDataProps}
    (s : StoreState) (h : loadsSuccessfully env.bookmarks v) :
    (callbackStep env s).bookmarkData = bookmarkUpdate v := by
  obtain ⟨a, b, p, t, i, htup⟩ := fetchProduction_shape env
  have h1 : fetchChain "bookmark" LoadResult.bookmark env.bookmarks = some (.bookmark b) :=
    congrArg (fun x => x.2.1) htup
  rw [fetchChain_of_success "bookmark" LoadResult.bookmark h] at h1
  injection h1 with h1
  injection h1 with h1
  subst h1
  rw [callbackStep_eq_applyResults s htup]
  rfl

lemma callbackStep_search_success {env : NetworkEnv} {v : ISearchProviderDataProps}
    (s : StoreState) (h : loadsSuccessfully env.search v) :
    (callbackStep env s).searchProviderData = searchUpdate v := by
  obtain ⟨a, b, p, t, i, htup⟩ := fetchProduction_shape env
  have h1 : fetchChain "searchProvider" LoadResult.search env.search = some (.search p) :=
    congrArg (fun x => x.2.2.1) htup
  rw [fetchChain_of_success "searchProvider" LoadResult.search h] at h1
  injection h1 with h1
  injection h1 with h1
  subst h1
  rw [callbackStep_eq_applyResults s htup]
  rfl

lemma callbackStep_theme_success {env : NetworkEnv} {v : IThemeDataProps}
    (s : StoreState) (h : loadsSuccessfully env.themes v) :
    (callbackStep env s).themeData = themeUpdate v := by
  obtain ⟨a, b, p, t, i, htup⟩ := fetchProduction_shape env
  have h1 : fetchChain "theme" LoadResult.theme env.themes = some (.theme t) :=
    congrArg (fun x => x.2.2.2.1) htup
  rw [fetchChain_of_success "theme" LoadResult.theme h] at h1
  injection h1 with h1
  injection h1 with h1
  subst h1
  rw [callbackStep_eq_applyResults s htup]
  rfl

lemma callbackStep_imprint_success {env : NetworkEnv} {v : IImprintDataProps}
    (s : StoreState) (h : loadsSuccessfully env.imprint v) :
    (callbackStep env s).imprintData = imprintUpdate v := by
  obtain ⟨a, b, p, t, i, htup⟩ := fetchProduction_shape env
  have h1 : fetchChain "imprint" LoadResult.imprint env.imprint = some (.imprint i) :=
    congrArg (fun x => x.2.2.2.2) htup
  rw [fetchChain_of_success "imprint" LoadResult.imprint h] at h1
  injection h1 with h1
  injection h1 with h1
  subst h1
  rw [callbackStep_eq_applyResults s htup]
  rfl

lemma callbackStep_app_fails {env : NetworkEnv} {e : JsError}
    (s : StoreState) (h : failsWith env.apps e) :
    (callbackStep env s).appData =
      appUpdate { defaults.app with error := .str e.message } := by
  obtain ⟨a, b, p, t, i, htup⟩ := fetchProduction_shape env
  have h1 : fetchChain "apps" LoadResult.app env.apps = some (.app a) :=
    congrArg Prod.fst htup
  rw [fetchChain_of_fails "apps" LoadResult.app h] at h1
  injection h1 with h1
  injection h1 with h1
  subst h1
  rw [callbackStep_eq_applyResults s htup]
  rfl

lemma callbackStep_bookmark_fails {env : NetworkEnv} {e : JsError}
    (s : StoreState) (h : failsWith env.bookmarks e) :
    (callbackStep env s).bookmarkData =
      bookmarkUpdate { defaults.bookmark with error := .str e.message } := by
  obtain ⟨a, b, p, t, i, htup⟩ := fetchProduction_shape env
  have h1 : fetchChain "bookmark" LoadResult.bookmark env.bookmarks = some (.bookmark b) :=
    congrArg (fun x => x.2.1) htup
  rw [fetchChain_of_fails "bookmark" LoadResult.bookmark h] at h1
  injection h1 with h1
  injection h1 with h1
  subst h1
  rw [callbackStep_eq_applyResults s htup]
  rfl

lemma callbackStep_search_fails {env : NetworkEnv} {e : JsError}
    (s : StoreState) (h : failsWith env.search e) :
    (callbackStep env s).searchProviderData =
      searchUpdate { defaults.search with error := .str e.message } := by
  obtain ⟨a, b, p, t, i, htup⟩ := fetchProduction_shape env
  have h1 : fetchChain "searchProvider" LoadResult.search env.search = some (.search p) :=
    congrArg (fun x => x.2.2.1) htup
  rw [fetchChain_of_fails "searchProvider" LoadResult.search h] at h1
  injection h1 with h1
  injection h1 with h1
  subst h1
  rw [callbackStep_eq_applyResults s htup]
  rfl

lemma callbackStep_theme_fails {env : NetworkEnv} {e : JsError}
    (s : StoreState) (h : failsWith env.themes e) :
    (callbackStep env s).themeData =
      themeUpdate { defaults.theme with error := .str e.message } := by
  obtain ⟨a, b, p, t, i, htup⟩ := fetchProduction_shape env
  have h1 : fetchChain "theme" LoadResult.theme env.themes = some (.theme t) :=
    congrArg (fun x => x.2.2.2.1) htup
  rw [fetchChain_of_fails "theme" LoadResult.theme h] at h1
  injection h1 with h1
  injection h1 with h1
  subst h1
  rw [callbackStep_eq_applyResults s htup]
  rfl

lemma callbackStep_imprint_fails {env : NetworkEnv} {e : JsError}
    (s : StoreState) (h : failsWith env.imprint e) :
    (callbackStep env s).imprintData =
      imprintUpdate { defaults.imprint with error := .str e.message } := by
  obtain ⟨a, b, p, t, i, htup⟩ := fetchProduction_shape env
  have h1 : fetchChain "imprint" LoadResult.imprint env.imprint = some (.imprint i) :=
    congrArg (fun x => x.2.2.2.2) htup
  rw [fetchChain_of_fails "imprint" LoadResult.imprint h] at h1
  injection h1 with h1
  injection h1 with h1
  subst h1
  rw [callbackStep_eq_applyResults s htup]
  rfl

/-- A §6-shaped apps body (no `error` member). -/
def appBody0 : IAppDataProps := { categories := [], apps := [], error := .undef }

/-- A second, different §6-shaped apps body. -/
def appBody1 : IAppDataProps :=
  { categories := ["tools"], apps := ["calculator"], error := .undef }

/-- A §6-shaped bookmarks body. -/
def bookmarkBody0 : IBookmarkDataProps := { groups := ["news"], error := .undef }

/-- A §6-shaped search body. -/
def searchBody0 : ISearchProviderDataProps := { providers := ["duck"], error := .undef }

/-- A §6-shaped themes body. -/
def themeBody0 : IThemeDataProps :=
  { themes := [⟨"Classic", 0, "#000000", "#1e272e", "#ffffff"⟩], error := .undef }

/-- A §6-shaped imprint body. -/
def imprintBody0 : IImprintDataProps :=
  { imprint :=
      { name := ⟨"n", "l"⟩, address := ⟨"a", "l"⟩, phone := ⟨"p", "l"⟩,
        email := ⟨"e", "l"⟩, url := ⟨"u", "l"⟩, text := "hello" },
    error := .undef }

/-- A resolved 200 response whose body parses to `v`. -/
def okResp {α : Type} (v : α) : FetchOutcome α :=
  Except.ok { status := 200, json := Except.ok v }

/-- An environment where all five GETs succeed with §6-shaped bodies. -/
def env0 : NetworkEnv :=
  { apps := okResp appBody0, bookmarks := okResp bookmarkBody0,
    search := okResp searchBody0, themes := okResp themeBody0,
    imprint := okResp imprintBody0 }

/-- Like `env0` but `/data/apps.json` serves a different body. -/
def env1 : NetworkEnv := { env0 with apps := okResp appBody1 }

/-- Like `env0` but `/data/apps.json` answers with status 500. -/
def env500 : NetworkEnv :=
  { env0 with apps := Except.ok { status := 500, json := Except.ok appBody0 } }

/-- Like `env0` but `/data/apps.json` rejects at the network level. -/
def envAppNetFail : NetworkEnv :=
  { env0 with apps := Except.error ⟨"boom"⟩ }

/-- An environment where all five fetches reject with a network error. -/
def envNetFail : NetworkEnv :=
  { apps := Except.error ⟨"connection reset"⟩,
    bookmarks := Except.error ⟨"connection reset"⟩,
    search := Except.error ⟨"connection reset"⟩,
    themes := Except.error ⟨"connection reset"⟩,
    imprint := Except.error ⟨"connection reset"⟩ }

/-- An environment where all five responses carry non-success statuses. -/
def envAllHttpFail : NetworkEnv :=
  { apps := Except.ok { status := 500, json := Except.error ⟨"x"⟩ },
    bookmarks := Except.ok { status := 404, json := Except.error ⟨"x"⟩ },
    search := Except.ok { status := 503, json := Except.error ⟨"x"⟩ },
    themes := Except.ok { status := 500, json := Except.error ⟨"x"⟩ },
    imprint := Except.ok { status := 400, json := Except.error ⟨"x"⟩ } }

/-- An apps body that parses fine but carries a stray truthy `error` field. -/
def strayBody : IAppDataProps :=
  { categories := [], apps := ["calculator"], error := .str "oops" }

/-- Like `env0` but `/data/apps.json` serves `strayBody` with status 200. -/
def envStray : NetworkEnv := { env0 with apps := okResp strayBody }

/-- C1: the claim asserts that every invocation of the returned callback
re-derives the slices from a fresh execution of the five loads. It is false:
the module-level `Promise.all` is executed once, so an invocation made after
the environment has changed (`env1` at call time) still yields the slices of
the module-initialization environment (`env0`). -/
theorem c1_counterexample :
    callbackInvocation env0 env1 initialState ≠ callbackStep env1 initialState := by
  decide

/-- C1 (amended): every invocation of the returned callback re-applies the
single aggregate load executed at module initialization — its result is
determined by the module-initialization environment alone, independent of
the environment at call time and of the store state being updated. -/
theorem c1_amended (envInit eCall eCallTwo : NetworkEnv) (s sTwo : StoreState) :
    callbackInvocation envInit eCall s = callbackInvocation envInit eCallTwo sTwo := by
  obtain ⟨a, b, p, t, i, htup⟩ := fetchProduction_shape envInit
  unfold callbackInvocation
  rw [callbackStep_eq_applyResults s htup, callbackStep_eq_applyResults sTwo htup]
  rfl

/-- C2: the claim asserts that every failure cause yields the fixed message
"Failed to load data.". It is false for a network-level rejection: the
`catch` stores the underlying exception's message. -/
theorem c2_counterexample :
    fetchChain "apps" LoadResult.app (Except.error ⟨"Failed to fetch"⟩) =
      some (.app { categories := [], apps := [], error := .str "Failed to fetch" }) ∧
    ("Failed to fetch" : String) ≠ errorMessage := by
  exact ⟨rfl, by decide⟩

/-- C2 (amended): for every resource kind, a failing load stores the message
of the exception that reached the `catch`: the fixed message exactly when the
failure is a non-success HTTP status (where `handleResponse` throws
`Error(errorMessage)`), and the underlying cause's message for network
rejections and body-parse failures. -/
theorem c2_amended :
    (∀ (o : FetchOutcome IAppDataProps) (e : JsError), failsWith o e →
      fetchChain "apps" LoadResult.app o =
        some (.app { defaults.app with error := .str e.message })) ∧
    (∀ (o : FetchOutcome IBookmarkDataProps) (e : JsError), failsWith o e →
      fetchChain "bookmark" LoadResult.bookmark o =
        some (.bookmark { defaults.bookmark with error := .str e.message })) ∧
    (∀ (o : FetchOutcome ISearchProviderDataProps) (e : JsError), failsWith o e →
      fetchChain "searchProvider" LoadResult.search o =
        some (.search { defaults.search with error := .str e.message })) ∧
    (∀ (o : FetchOutcome IThemeDataProps) (e : JsError), failsWith o e →
      fetchChain "theme" LoadResult.theme o =
        some (.theme { defaults.theme with error := .str e.message })) ∧
    (∀ (o : FetchOutcome IImprintDataProps) (e : JsError), failsWith o e →
      fetchChain "imprint" LoadResult.imprint o =
        some (.imprint { defaults.imprint with error := .str e.message })) := by
  refine ⟨?_, ?_, ?_, ?_, ?_⟩ <;>
    · intro o e h
      rw [fetchChain_of_fails _ _ h]
      rfl

/-- C2 (amended) at concrete inputs: a 404 on the themes GET stores the fixed
message, and a network rejection of the apps GET stores the cause's message. -/
theorem c2_amended_witness :
    fetchChain "theme" LoadResult.theme (Except.ok { status := 404, json := Except.ok themeBody0 }) =
      some (.theme { defaults.theme with error := .str errorMessage }) ∧
    fetchChain "apps" LoadResult.app (Except.error ⟨"boom"⟩) =
      some (.app { defaults.app with error := .str "boom" }) :=
  ⟨c2_amended.2.2.2.1 _ ⟨errorMessage⟩ (Or.inr ⟨_, rfl, Or.inl ⟨by decide, rfl⟩⟩),
   c2_amended.1 _ ⟨"boom"⟩ (Or.inl rfl)⟩

/-- C4: the claim asserts that a successful load whose payload carries a
truthy `error` field ends with the slice's `error` equal to `false`. It is
false: the callback checks the destructured value's `error` field, so such a
payload is treated as a failed load and stored unchanged, keeping its truthy
`error`. -/
theorem c4_counterexample :
    loadsSuccessfully envStray.apps strayBody ∧
    strayBody.error.truthy = true ∧
    (callbackStep envStray initialState).appData.error ≠ ErrVal.bool false := by
  refine ⟨⟨{ status := 200, json := Except.ok strayBody }, rfl, by decide, rfl⟩,
    by decide, by decide⟩

/-- C4 (amended): for every resource kind, a successful load whose parsed
payload carries a truthy `error` field is stored unchanged as that kind's
slice — the slice keeps the payload's own truthy `error` value; the store's
re-assertion to `false` applies only when the payload's `error` field is
falsy. -/
theorem c4_amended :
    (∀ (env : NetworkEnv) (v : IAppDataProps) (s : StoreState),
      loadsSuccessfully env.apps v → v.error.truthy = true →
      (callbackStep env s).appData = v) ∧
    (∀ (env : NetworkEnv) (v : IBookmarkDataProps) (s : StoreState),
      loadsSuccessfully env.bookmarks v → v.error.truthy = true →
      (callbackStep env s).bookmarkData = v) ∧
    (∀ (env : NetworkEnv) (v : ISearchProviderDataProps) (s : StoreState),
      loadsSuccessfully env.search v → v.error.truthy = true →
      (callbackStep env s).searchProviderData = v) ∧
    (∀ (env : NetworkEnv) (v : IThemeDataProps) (s : StoreState),
      loadsSuccessfully env.themes v → v.error.truthy = true →
      (callbackStep env s).themeData = v) ∧
    (∀ (env : NetworkEnv) (v : IImprintDataProps) (s : StoreState),
      loadsSuccessfully env.imprint v → v.error.truthy = true →
      (callbackStep env s).imprintData = v) := by
  refine ⟨fun env v s h ht => ?_, fun env v s h ht => ?_, fun env v s h ht => ?_,
    fun env v s h ht => ?_, fun env v s h ht => ?_⟩
  · rw [callbackStep_app_success s h]; simp [appUpdate, ht]
  · rw [callbackStep_bookmark_success s h]; simp [bookmarkUpdate, ht]
  · rw [callbackStep_search_success s h]; simp [searchUpdate, ht]
  · rw [callbackStep_theme_success s h]; simp [themeUpdate, ht]
  · rw [callbackStep_imprint_success s h]; simp [imprintUpdate, ht]

/-- C4 (amended) at a concrete input: the stray-error apps payload is stored
unchanged. -/
theorem c4_amended_witness :
    (callbackStep envStray initialState).appData = strayBody :=
  c4_amended.1 envStray strayBody initialState
    ⟨{ status := 200, json := Except.ok strayBody }, rfl, by decide, rfl⟩ (by decide)

/-- C10: `handleError` maps each of the five known status strings to that
kind's default payload carrying the given exception's message, and returns
`undefined` (`none`) for every other status string. -/
theorem c10_handleError (e : JsError) :
    handleError "apps" e = some (.app { defaults.app with error := .str e.message }) ∧
    handleError "bookmark" e = some (.bookmark { defaults.bookmark with error := .str e.message }) ∧
    handleError "searchProvider" e = some (.search { defaults.search with error := .str e.message }) ∧
    handleError "theme" e = some (.theme { defaults.theme with error := .str e.message }) ∧
    handleError "imprint" e = some (.imprint { defaults.imprint with error := .str e.message }) ∧
    ∀ status : String, status ≠ "apps" → status ≠ "bookmark" →
      status ≠ "searchProvider" → status ≠ "theme" → status ≠ "imprint" →
      handleError status e = none := by
  refine ⟨rfl, rfl, rfl, rfl, rfl, ?_⟩
  intro status h1 h2 h3 h4 h5
  unfold handleError
  split <;> simp_all

/-- C10 at concrete inputs: the apps status maps to the apps default carrying
the message, and an unknown status maps to `undefined`. -/
theorem c10_handleError_witness :
    handleError "apps" ⟨"m"⟩ = some (.app { defaults.app with error := .str "m" }) ∧
    handleError "unknown" ⟨"m"⟩ = none :=
  ⟨(c10_handleError ⟨"m"⟩).1,
   (c10_handleError ⟨"m"⟩).2.2.2.2.2 "unknown" (by decide) (by decide) (by decide)
     (by decide) (by decide)⟩

lemma useEffectFires_callbackIdentity_succ (n : Nat) :
    useEffectFires callbackIdentity (n + 1) = false := by
  simp [useEffectFires, callbackIdentity]

lemma effectFireCount_succ {α : Type} [DecidableEq α] (deps : Nat → α) (n : Nat) :
    effectFireCount deps (n + 1) =
      effectFireCount deps n + (if useEffectFires deps n then 1 else 0) := by
  unfold effectFireCount
  rw [List.range_succ, List.countP_append]
  simp [List.countP_cons]

/-- C3: for every combination of per-resource outcomes, the aggregate load
settles with all five positions defined (it never rejects); a failing
resource's position is converted, locally, to that kind's default payload
carrying the caught exception's message; and every resource that loads
successfully with a payload of its declared shape has its slice stored with
its parsed payload and `error = false`. -/
theorem c3_isolation (env : NetworkEnv) :
    (∃ a b p t i, fetchProduction env =
      (some (.app a), some (.bookmark b), some (.search p),
       some (.theme t), some (.imprint i))) ∧
    (∀ e, failsWith env.apps e →
      (fetchProduction env).1 =
        some (.app { defaults.app with error := .str e.message })) ∧
    (∀ e, failsWith env.bookmarks e →
      (fetchProduction env).2.1 =
        some (.bookmark { defaults.bookmark with error := .str e.message })) ∧
    (∀ e, failsWith env.search e →
      (fetchProduction env).2.2.1 =
        some (.search { defaults.search with error := .str e.message })) ∧
    (∀ e, failsWith env.themes e →
      (fetchProduction env).2.2.2.1 =
        some (.theme { defaults.theme with error := .str e.message })) ∧
    (∀ e, failsWith env.imprint e →
      (fetchProduction env).2.2.2.2 =
        some (.imprint { defaults.imprint with error := .str e.message })) ∧
    (∀ (v : IAppDataProps) (s : StoreState), loadsSuccessfully env.apps v →
      v.error.truthy = false →
      (callbackStep env s).appData = { v with error := .bool false }) ∧
    (∀ (v : IBookmarkDataProps) (s : StoreState), loadsSuccessfully env.bookmarks v →
      v.error.truthy = false →
      (callbackStep env s).bookmarkData = { v with error := .bool false }) ∧
    (∀ (v : ISearchProviderDataProps) (s : StoreState), loadsSuccessfully env.search v →
      v.error.truthy = false →
      (callbackStep env s).searchProviderData = { v with error := .bool false }) ∧
    (∀ (v : IThemeDataProps) (s : StoreState), loadsSuccessfully env.themes v →
      v.error.truthy = false →
      (callbackStep env s).themeData = { v with error := .bool false }) ∧
    (∀ (v : IImprintDataProps) (s : StoreState), loadsSuccessfully env.imprint v →
      v.error.truthy = false →
      (callbackStep env s).imprintData = { v with error := .bool false }) := by
  refine ⟨fetchProduction_shape env, ?_, ?_, ?_, ?_, ?_, ?_, ?_, ?_, ?_, ?_⟩
  · intro e h
    show fetchChain "apps" LoadResult.app env.apps = _
    rw [fetchChain_of_fails _ _ h]; rfl
  · intro e h
    show fetchChain "bookmark" LoadResult.bookmark env.bookmarks = _
    rw [fetchChain_of_fails _ _ h]; rfl
  · intro e h
    show fetchChain "searchProvider" LoadResult.search env.search = _
    rw [fetchChain_of_fails _ _ h]; rfl
  · intro e h
    show fetchChain "theme" LoadResult.theme env.themes = _
    rw [fetchChain_of_fails _ _ h]; rfl
  · intro e h
    show fetchChain "imprint" LoadResult.imprint env.imprint = _
    rw [fetchChain_of_fails _ _ h]; rfl
  · intro v s h ht
    rw [callbackStep_app_success s h]; simp [appUpdate, ht]
  · intro v s h ht
    rw [callbackStep_bookmark_success s h]; simp [bookmarkUpdate, ht]
  · intro v s h ht
    rw [callbackStep_search_success s h]; simp [searchUpdate, ht]
  · intro v s h ht
    rw [callbackStep_theme_success s h]; simp [themeUpdate, ht]
  · intro v s h ht
    rw [callbackStep_imprint_success s h]; simp [imprintUpdate, ht]

/-- C3 at concrete inputs: with the apps GET rejecting at the network level
and the bookmarks GET succeeding, the apps position carries the default
payload with the caught message and the bookmarks slice carries its parsed
payload with `error = false`. -/
theorem c3_isolation_witness :
    (fetchProduction envAppNetFail).1 =
      some (.app { defaults.app with error := .str "boom" }) ∧
    (callbackStep envAppNetFail initialState).bookmarkData =
      { bookmarkBody0 with error := .bool false } :=
  ⟨(c3_isolation envAppNetFail).2.1 ⟨"boom"⟩ (Or.inl rfl),
   (c3_isolation envAppNetFail).2.2.2.2.2.2.2.1 bookmarkBody0 initialState
     ⟨{ status := 200, json := Except.ok bookmarkBody0 }, rfl, by decide, rfl⟩
     (by decide)⟩

/-- C6: at construction of the store, every slice holds its kind's default
payload with `error = false`, and the mount effect (`useEffect` over the
`useCallback`-stable callback) fires exactly once however many renders
follow. -/
theorem c6_initialization :
    (initialState.appData = defaults.app ∧
     initialState.bookmarkData = defaults.bookmark ∧
     initialState.searchProviderData = defaults.search ∧
     initialState.themeData = defaults.theme ∧
     initialState.imprintData = defaults.imprint ∧
     initialState.appData.error = .bool false ∧
     initialState.bookmarkData.error = .bool false ∧
     initialState.searchProviderData.error = .bool false ∧
     initialState.themeData.error = .bool false ∧
     initialState.imprintData.error = .bool false) ∧
    ∀ n, 1 ≤ n → effectFireCount callbackIdentity n = 1 := by
  refine ⟨⟨rfl, rfl, rfl, rfl, rfl, rfl, rfl, rfl, rfl, rfl⟩, ?_⟩
  intro n hn
  obtain ⟨m, rfl⟩ : ∃ m, n = m + 1 := ⟨n - 1, by omega⟩
  clear hn
  induction m with
  | zero => decide
  | succ k ih =>
    rw [effectFireCount_succ, useEffectFires_callbackIdentity_succ, ih]
    decide

/-- C6 at a concrete input: after three renders the effect has fired once. -/
theorem c6_initialization_witness :
    1 ≤ 3 ∧ effectFireCount callbackIdentity 3 = 1 :=
  ⟨by decide, c6_initialization.2 3 (by decide)⟩

/-- C7: the aggregate load settles as the ordered 5-tuple of the five fetch
chains, in the fixed order [apps, bookmarks, search providers, themes,
imprint], and the store writes position i of the tuple into the slice of the
corresponding resource kind. -/
theorem c7_order (env : NetworkEnv) (s : StoreState)
    (a : IAppDataProps) (b : IBookmarkDataProps) (p : ISearchProviderDataProps)
    (t : IThemeDataProps) (i : IImprintDataProps)
    (h : fetchProduction env =
      (some (.app a), some (.bookmark b), some (.search p),
       some (.theme t), some (.imprint i))) :
    (fetchProduction env).1 = fetchChain "apps" LoadResult.app env.apps ∧
    (fetchProduction env).2.1 = fetchChain "bookmark" LoadResult.bookmark env.bookmarks ∧
    (fetchProduction env).2.2.1 = fetchChain "searchProvider" LoadResult.search env.search ∧
    (fetchProduction env).2.2.2.1 = fetchChain "theme" LoadResult.theme env.themes ∧
    (fetchProduction env).2.2.2.2 = fetchChain "imprint" LoadResult.imprint env.imprint ∧
    callbackStep env s =
      { appData := appUpdate a, bookmarkData := bookmarkUpdate b,
        searchProviderData := searchUpdate p, themeData := themeUpdate t,
        imprintData := imprintUpdate i } := by
  refine ⟨rfl, rfl, rfl, rfl, rfl, ?_⟩
  rw [callbackStep_eq_applyResults s h]
  rfl

/-- C7 at a concrete input: the all-successful environment is destructured
into the five slices in order. -/
theorem c7_order_witness :
    callbackStep env0 initialState =
      { appData := appUpdate appBody0, bookmarkData := bookmarkUpdate bookmarkBody0,
        searchProviderData := searchUpdate searchBody0,
        themeData := themeUpdate themeBody0,
        imprintData := imprintUpdate imprintBody0 } :=
  (c7_order env0 initialState appBody0 bookmarkBody0 searchBody0 themeBody0
    imprintBody0 (by decide)).2.2.2.2.2

lemma bind_handleResponse_ok {α : Type} {o : FetchOutcome α} {v : α}
    (h : Except.bind o handleResponse = Except.ok v) :
    ∃ r, o = Except.ok r ∧ r.json = Except.ok v := by
  cases o with
  | error e => exact absurd h (by simp [Except.bind])
  | ok r =>
    refine ⟨r, rfl, ?_⟩
    simp only [Except.bind] at h
    unfold handleResponse at h
    split at h
    · exact h
    · exact Except.noConfusion h

lemma appSliceInv_of_chain {o : FetchOutcome IAppDataProps}
    (hconf : conformingBody IAppDataProps.error o)
    {x : IAppDataProps} (hx : fetchChain "apps" LoadResult.app o = some (.app x)) :
    appSliceInv (appUpdate x) = true := by
  unfold fetchChain at hx
  cases hbind : Except.bind o handleResponse with
  | ok v =>
    rw [hbind] at hx
    injection hx with hx
    injection hx with hx
    subst hx
    obtain ⟨r, hro, hrj⟩ := bind_handleResponse_ok hbind
    have ht := hconf r v hro hrj
    simp [appUpdate, ht, appSliceInv]
  | error e =>
    rw [hbind] at hx
    injection hx with hx
    injection hx with hx
    subst hx
    by_cases hm : e.message = "" <;>
      simp [appUpdate, appSliceInv, ErrVal.truthy, hm, defaults.app]

lemma bookmarkSliceInv_of_chain {o : FetchOutcome IBookmarkDataProps}
    (hconf : conformingBody IBookmarkDataProps.error o)
    {x : IBookmarkDataProps}
    (hx : fetchChain "bookmark" LoadResult.bookmark o = some (.bookmark x)) :
    bookmarkSliceInv (bookmarkUpdate x) = true := by
  unfold fetchChain at hx
  cases hbind : Except.bind o handleResponse with
  | ok v =>
    rw [hbind] at hx
    injection hx with hx
    injection hx with hx
    subst hx
    obtain ⟨r, hro, hrj⟩ := bind_handleResponse_ok hbind
    have ht := hconf r v hro hrj
    simp [bookmarkUpdate, ht, bookmarkSliceInv]
  | error e =>
    rw [hbind] at hx
    injection hx with hx
    injection hx with hx
    subst hx
    by_cases hm : e.message = "" <;>
      simp [bookmarkUpdate, bookmarkSliceInv, ErrVal.truthy, hm, defaults.bookmark]

lemma searchSliceInv_of_chain {o : FetchOutcome ISearchProviderDataProps}
    (hconf : conformingBody ISearchProviderDataProps.error o)
    {x : ISearchProviderDataProps}
    (hx : fetchChain "searchProvider" LoadResult.search o = some (.search x)) :
    searchSliceInv (searchUpdate x) = true := by
  unfold fetchChain at hx
  cases hbind : Except.bind o handleResponse with
  | ok v =>
    rw [hbind] at hx
    injection hx with hx
    injection hx with hx
    subst hx
    obtain ⟨r, hro, hrj⟩ := bind_handleResponse_ok hbind
    have ht := hconf r v hro hrj
    simp [searchUpdate, ht, searchSliceInv]
  | error e =>
    rw [hbind] at hx
    injection hx with hx
    injection hx with hx
    subst hx
    by_cases hm : e.message = "" <;>
      simp [searchUpdate, searchSliceInv, ErrVal.truthy, hm, defaults.search]

lemma themeSliceInv_of_chain {o : FetchOutcome IThemeDataProps}
    (hconf : conformingBody IThemeDataProps.error o)
    {x : IThemeDataProps}
    (hx : fetchChain "theme" LoadResult.theme o = some (.theme x)) :
    themeSliceInv (themeUpdate x) = true := by
  unfold fetchChain at hx
  cases hbind : Except.bind o handleResponse with
  | ok v =>
    rw [hbind] at hx
    injection hx with hx
    injection hx with hx
    subst hx
    obtain ⟨r, hro, hrj⟩ := bind_handleResponse_ok hbind
    have ht := hconf r v hro hrj
    simp [themeUpdate, ht, themeSliceInv]
  | error e =>
    rw [hbind] at hx
    injection hx with hx
    injection hx with hx
    subst hx
    by_cases hm : e.message = "" <;>
      simp [themeUpdate, themeSliceInv, ErrVal.truthy, hm, defaults.theme]

lemma imprintSliceInv_of_chain {o : FetchOutcome IImprintDataProps}
    (hconf : conformingBody IImprintDataProps.error o)
    {x : IImprintDataProps}
    (hx : fetchChain "imprint" LoadResult.imprint o = some (.imprint x)) :
    imprintSliceInv (imprintUpdate x) = true := by
  unfold fetchChain at hx
  cases hbind : Except.bind o handleResponse with
  | ok v =>
    rw [hbind] at hx
    injection hx with hx
    injection hx with hx
    subst hx
    obtain ⟨r, hro, hrj⟩ := bind_handleResponse_ok hbind
    have ht := hconf r v hro hrj
    simp [imprintUpdate, ht, imprintSliceInv]
  | error e =>
    rw [hbind] at hx
    injection hx with hx
    injection hx with hx
    subst hx
    by_cases hm : e.message = "" <;>
      simp [imprintUpdate, imprintSliceInv, ErrVal.truthy, hm, defaults.imprint]

/-- C5: the claim asserts that at every observable point each slice is in one
of the two admissible states. It is false as stated: a successful load whose
body carries a stray truthy `error` field and a non-default payload is stored
unchanged, leaving the apps slice with a non-default payload paired with a
truthy error. -/
theorem c5_counterexample :
    appSliceInv ((callbackStep envStray initialState).appData) = false := by
  decide

/-- C5 (amended): the two-state invariant holds at initialization and after
every completed refresh cycle, provided every body a resource's fetch parses
carries no truthy `error` field (as the §6 payload shapes, which have no
`error` member, guarantee). -/
theorem c5_amended :
    storeInv initialState = true ∧
    ∀ (env : NetworkEnv) (s : StoreState), wellFormedEnv env →
      storeInv (callbackStep env s) = true := by
  refine ⟨by decide, ?_⟩
  intro env s hwf
  obtain ⟨a, b, p, t, i, htup⟩ := fetchProduction_shape env
  have h1 : fetchChain "apps" LoadResult.app env.apps = some (.app a) :=
    congrArg Prod.fst htup
  have h2 : fetchChain "bookmark" LoadResult.bookmark env.bookmarks = some (.bookmark b) :=
    congrArg (fun x => x.2.1) htup
  have h3 : fetchChain "searchProvider" LoadResult.search env.search = some (.search p) :=
    congrArg (fun x => x.2.2.1) htup
  have h4 : fetchChain "theme" LoadResult.theme env.themes = some (.theme t) :=
    congrArg (fun x => x.2.2.2.1) htup
  have h5 : fetchChain "imprint" LoadResult.imprint env.imprint = some (.imprint i) :=
    congrArg (fun x => x.2.2.2.2) htup
  have i1 := appSliceInv_of_chain hwf.1 h1
  have i2 := bookmarkSliceInv_of_chain hwf.2.1 h2
  have i3 := searchSliceInv_of_chain hwf.2.2.1 h3
  have i4 := themeSliceInv_of_chain hwf.2.2.2.1 h4
  have i5 := imprintSliceInv_of_chain hwf.2.2.2.2 h5
  rw [callbackStep_eq_applyResults s htup]
  simp [storeInv, applyResults, i1, i2, i3, i4, i5]

/-- C5 (amended) at a concrete input: the all-network-failing environment is
well-formed and preserves the invariant. -/
theorem c5_amended_witness :
    wellFormedEnv envNetFail ∧
    storeInv (callbackStep envNetFail initialState) = true := by
  have hwf : wellFormedEnv envNetFail := by
    refine ⟨?_, ?_, ?_, ?_, ?_⟩ <;>
      · intro r v h hv
        simp [envNetFail] at h
  exact ⟨hwf, c5_amended.2 envNetFail initialState hwf⟩

/-- C8: if the apps GET answers with status 500 while the other four
resources load successfully with §6-shaped bodies, the apps slice becomes
the default payload with the fixed message and the other four slices carry
their parsed payloads with `error = false`. -/
theorem c8_scenarioB (env : NetworkEnv) (s : StoreState)
    (rA : Response IAppDataProps) (hA : env.apps = Except.ok rA)
    (h500 : rA.status = 500)
    (vB : IBookmarkDataProps) (hB : loadsSuccessfully env.bookmarks vB)
    (hBc : vB.error.truthy = false)
    (vP : ISearchProviderDataProps) (hP : loadsSuccessfully env.search vP)
    (hPc : vP.error.truthy = false)
    (vT : IThemeDataProps) (hT : loadsSuccessfully env.themes vT)
    (hTc : vT.error.truthy = false)
    (vI : IImprintDataProps) (hI : loadsSuccessfully env.imprint vI)
    (hIc : vI.error.truthy = false) :
    callbackStep env s =
      { appData := { categories := [], apps := [], error := .str errorMessage },
        bookmarkData := { vB with error := .bool false },
        searchProviderData := { vP with error := .bool false },
        themeData := { vT with error := .bool false },
        imprintData := { vI with error := .bool false } } := by
  have hok : rA.ok = false := by simp [Response.ok, h500]
  have hfail : failsWith env.apps ⟨errorMessage⟩ :=
    Or.inr ⟨rA, hA, Or.inl ⟨hok, rfl⟩⟩
  have happ : (callbackStep env s).appData =
      { categories := [], apps := [], error := .str errorMessage } := by
    rw [callbackStep_app_fails s hfail]; decide
  have hbm : (callbackStep env s).bookmarkData = { vB with error := .bool false } := by
    rw [callbackStep_bookmark_success s hB]; simp [bookmarkUpdate, hBc]
  have hsp : (callbackStep env s).searchProviderData = { vP with error := .bool false } := by
    rw [callbackStep_search_success s hP]; simp [searchUpdate, hPc]
  have hth : (callbackStep env s).themeData = { vT with error := .bool false } := by
    rw [callbackStep_theme_success s hT]; simp [themeUpdate, hTc]
  have him : (callbackStep env s).imprintData = { vI with error := .bool false } := by
    rw [callbackStep_imprint_success s hI]; simp [imprintUpdate, hIc]
  have heta : callbackStep env s =
      { appData := (callbackStep env s).appData,
        bookmarkData := (callbackStep env s).bookmarkData,
        searchProviderData := (callbackStep env s).searchProviderData,
        themeData := (callbackStep env s).themeData,
        imprintData := (callbackStep env s).imprintData } := rfl
  rw [heta, happ, hbm, hsp, hth, him]

/-- C8 at a concrete input: `env500` produces exactly scenario B's state. -/
theorem c8_scenarioB_witness :
    callbackStep env500 initialState =
      { appData := { categories := [], apps := [], error := .str errorMessage },
        bookmarkData := { bookmarkBody0 with error := .bool false },
        searchProviderData := { searchBody0 with error := .bool false },
        themeData := { themeBody0 with error := .bool false },
        imprintData := { imprintBody0 with error := .bool false } } :=
  c8_scenarioB env500 initialState
    { status := 500, json := Except.ok appBody0 } rfl rfl
    bookmarkBody0 ⟨{ status := 200, json := Except.ok bookmarkBody0 }, rfl, by decide, rfl⟩
    (by decide)
    searchBody0 ⟨{ status := 200, json := Except.ok searchBody0 }, rfl, by decide, rfl⟩
    (by decide)
    themeBody0 ⟨{ status := 200, json := Except.ok themeBody0 }, rfl, by decide, rfl⟩
    (by decide)
    imprintBody0 ⟨{ status := 200, json := Except.ok imprintBody0 }, rfl, by decide, rfl⟩
    (by decide)

/-- C9: the claim asserts that whenever all five resources fail, every
slice's error field is the fixed message. It is false as stated: when all
five fetches reject at the network level, the slices carry the rejection's
own message instead. -/
theorem c9_counterexample :
    failsWith envNetFail.apps ⟨"connection reset"⟩ ∧
    failsWith envNetFail.bookmarks ⟨"connection reset"⟩ ∧
    failsWith envNetFail.search ⟨"connection reset"⟩ ∧
    failsWith envNetFail.themes ⟨"connection reset"⟩ ∧
    failsWith envNetFail.imprint ⟨"connection reset"⟩ ∧
    (callbackStep envNetFail initialState).appData.error ≠ .str errorMessage := by
  exact ⟨Or.inl rfl, Or.inl rfl, Or.inl rfl, Or.inl rfl, Or.inl rfl, by decide⟩

/-- C9 (amended): if all five resources fail with non-success HTTP statuses,
the resulting state is structurally the initial default state except that
each slice's error field is the fixed message instead of `false`. -/
theorem c9_amended (env : NetworkEnv) (s : StoreState)
    (rA : Response IAppDataProps) (hA : env.apps = Except.ok rA) (hAok : rA.ok = false)
    (rB : Response IBookmarkDataProps) (hB : env.bookmarks = Except.ok rB) (hBok : rB.ok = false)
    (rP : Response ISearchProviderDataProps) (hP : env.search = Except.ok rP) (hPok : rP.ok = false)
    (rT : Response IThemeDataProps) (hT : env.themes = Except.ok rT) (hTok : rT.ok = false)
    (rI : Response IImprintDataProps) (hI : env.imprint = Except.ok rI) (hIok : rI.ok = false) :
    callbackStep env s =
      { appData := { initialState.appData with error := .str errorMessage },
        bookmarkData := { initialState.bookmarkData with error := .str errorMessage },
        searchProviderData := { initialState.searchProviderData with error := .str errorMessage },
        themeData := { initialState.themeData with error := .str errorMessage },
        imprintData := { initialState.imprintData with error := .str errorMessage } } := by
  have f1 : failsWith env.apps ⟨errorMessage⟩ := Or.inr ⟨rA, hA, Or.inl ⟨hAok, rfl⟩⟩
  have f2 : failsWith env.bookmarks ⟨errorMessage⟩ := Or.inr ⟨rB, hB, Or.inl ⟨hBok, rfl⟩⟩
  have f3 : failsWith env.search ⟨errorMessage⟩ := Or.inr ⟨rP, hP, Or.inl ⟨hPok, rfl⟩⟩
  have f4 : failsWith env.themes ⟨errorMessage⟩ := Or.inr ⟨rT, hT, Or.inl ⟨hTok, rfl⟩⟩
  have f5 : failsWith env.imprint ⟨errorMessage⟩ := Or.inr ⟨rI, hI, Or.inl ⟨hIok, rfl⟩⟩
  have happ : (callbackStep env s).appData =
      { initialState.appData with error := .str errorMessage } := by
    rw [callbackStep_app_fails s f1]; decide
  have hbm : (callbackStep env s).bookmarkData =
      { initialState.bookmarkData with error := .str errorMessage } := by
    rw [callbackStep_bookmark_fails s f2]; decide
  have hsp : (callbackStep env s).searchProviderData =
      { initialState.searchProviderData with error := .str errorMessage } := by
    rw [callbackStep_search_fails s f3]; decide
  have hth : (callbackStep env s).themeData =
      { initialState.themeData with error := .str errorMessage } := by
    rw [callbackStep_theme_fails s f4]; decide
  have him : (callbackStep env s).imprintData =
      { initialState.imprintData with error := .str errorMessage } := by
    rw [callbackStep_imprint_fails s f5]; decide
  have heta : callbackStep env s =
      { appData := (callbackStep env s).appData,
        bookmarkData := (callbackStep env s).bookmarkData,
        searchProviderData := (callbackStep env s).searchProviderData,
        themeData := (callbackStep env s).themeData,
        imprintData := (callbackStep env s).imprintData } := rfl
  rw [heta, happ, hbm, hsp, hth, him]

/-- C9 (amended) at a concrete input: all-HTTP-failing statuses produce the
default state with each error set to the fixed message. -/
theorem c9_amended_witness :
    callbackStep envAllHttpFail initialState =
      { appData := { initialState.appData with error := .str errorMessage },
        bookmarkData := { initialState.bookmarkData with error := .str errorMessage },
        searchProviderData := { initialState.searchProviderData with error := .str errorMessage },
        themeData := { initialState.themeData with error := .str errorMessage },
        imprintData := { initialState.imprintData with error := .str errorMessage } } :=
  c9_amended envAllHttpFail initialState
    { status := 500, json := Except.error ⟨"x"⟩ } rfl (by decide)
    { status := 404, json := Except.error ⟨"x"⟩ } rfl (by decide)
    { status := 503, json := Except.error ⟨"x"⟩ } rfl (by decide)
    { status := 500, json := Except.error ⟨"x"⟩ } rfl (by decide)
    { status := 400, json := Except.error ⟨"x"⟩ } rfl (by decide)

end Dashboard
